import Mathlib

/-
Verification of the batch stock-data acquisition scripts:
a shallow embedding of `data/get-stock-data.py` (single-item fetcher)
and `data/get-all-stock-data.py` (batch orchestrator), together with
theorems settling the specification's claims about them.

Modelling conventions:
- The file system is a finite map from path to file content (a string);
  file size is the content's length (the artifacts are ASCII CSV text).
- The yfinance provider is an oracle parameter
  `provider : String → String → Nat → Option String` mapping
  (yahoo ticker, period, attempt number) to the fetched history serialized
  as CSV, or `none` when the `stock.history` call raises an exception.
  An empty string models an empty DataFrame (`hist.empty`).
- Real time (the `time.sleep(2)` calls) is recorded as a ghost list of
  slept durations; provider queries are recorded as a ghost list so that
  "zero network calls" is expressible.
- The orchestrator invokes the fetcher as a subprocess; that boundary is an
  oracle `sub : String → String → SubprocBehavior` giving, per (code,
  period) argument pair, either the process result (exit code plus the
  stdout text that lands in the output file) or a raised exception.
  `subprocOf` ties the two scripts together by deriving the subprocess
  behaviour from the embedding of `get-stock-data.py`'s `main`.
- The orchestrator's thread pool completes futures in a nondeterministic
  order; the embedding processes submissions in list order. The counter
  updates are order-independent (one increment per finished item), which
  is what the counting claims are about.
-/

/- ================= get-stock-data.py ================= -/

/-- Trace of one call of `fetch_stock_data`: the returned history (CSV text,
`none` when all attempts failed and the function gives up), the ghost list of
provider queries made (yahoo ticker, period), and the ghost list of sleep
durations between attempts. -/
structure FetchTrace where
  result : Option String
  queries : List (String × String)
  sleeps : List Nat
  deriving DecidableEq, Repr

/-- Outcome of one attempt of the `try` body in `fetch_stock_data`
(source lines 11-20): the provider raising (`none` from the oracle) or
returning an empty DataFrame (`""`) both fall into the `except` arm;
a non-empty history is returned. -/
def attemptOk (provider : String → String → Nat → Option String)
    (yahoo period : String) (n : Nat) : Option String :=
  match provider yahoo period n with
  | some h => if h = "" then none else some h
  | none => none

/-- The retry loop of `fetch_stock_data` (source lines 10-28), recursing on
the number of retries left (`fuel = max_attempts - attempt`). On attempt
failure with retries left it sleeps 2 seconds and retries; at the last
attempt it gives up and returns `none` (never raising to its caller). -/
def fetch_loop (provider : String → String → Nat → Option String)
    (ticker period : String) : Nat → Nat → FetchTrace
  | attempt, fuel =>
    match attemptOk provider (ticker ++ ".T") period attempt with
    | some h => ⟨some h, [(ticker ++ ".T", period)], []⟩
    | none =>
      match fuel with
      | 0 => ⟨none, [(ticker ++ ".T", period)], []⟩
      | f + 1 =>
        let t := fetch_loop provider ticker period (attempt + 1) f
        ⟨t.result, (ticker ++ ".T", period) :: t.queries, 2 :: t.sleeps⟩

/-- Source constant `max_attempts = 3` (get-stock-data.py line 9). -/
def max_attempts : Nat := 3

/-- Embedding of `fetch_stock_data(ticker, period)`: up to `max_attempts`
attempts starting at attempt 1, querying the provider for `ticker + ".T"`. -/
def fetch_stock_data (provider : String → String → Nat → Option String)
    (ticker period : String) : FetchTrace :=
  fetch_loop provider ticker period 1 (max_attempts - 1)

/-- Python's `str.isdigit()` restricted to ASCII decimal digits: true iff the
string is non-empty and every character is a decimal digit. -/
def py_isdigit (s : String) : Bool :=
  !s.isEmpty && s.toList.all Char.isDigit

/-- Period-argument handling of `main` in get-stock-data.py (lines 35-43):
no argument defaults to "1y"; an all-digit argument gets "y" appended;
anything else is used verbatim. -/
def gsd_main_period (arg : Option String) : String :=
  match arg with
  | none => "1y"
  | some s => if py_isdigit s then s ++ "y" else s

/-- Result of running get-stock-data.py as a subprocess: its exit code and
the text it printed to stdout (which the orchestrator redirects into the
output file). -/
structure SubprocResult where
  returncode : Nat
  stdout : String
  deriving DecidableEq, Repr

/-- The remainder of `main` in get-stock-data.py (lines 45-52) invoked with
argv = [ticker, period_arg]: fetch, then print the CSV to stdout and exit 0,
or print an error to stderr and exit 1 when no data was available. -/
def run_get_stock_data (provider : String → String → Nat → Option String)
    (ticker period_arg : String) : SubprocResult :=
  match (fetch_stock_data provider ticker (gsd_main_period (some period_arg))).result with
  | some h => ⟨0, h⟩
  | none => ⟨1, ""⟩

/- ================= get-all-stock-data.py ================= -/

/-- Behaviour of one `subprocess.run` call as seen by `fetch_single_stock`:
either the process ran to completion with a result, or the call raised an
exception (caught by the per-item `except` at lines 120-122). -/
inductive SubprocBehavior where
  | ok (r : SubprocResult)
  | raise
  deriving DecidableEq, Repr

/-- Derive the subprocess boundary from the embedding of get-stock-data.py:
the child process never raises into the parent; it exits 0 with the CSV on
stdout, or exits 1 with empty stdout. -/
def subprocOf (provider : String → String → Nat → Option String) :
    String → String → SubprocBehavior :=
  fun code period_arg => SubprocBehavior.ok (run_get_stock_data provider code period_arg)

/-- File system: association list from path to file content. -/
structure FS where
  files : List (String × String)
  deriving DecidableEq, Repr

/-- Content of a file, when present. -/
def FS.lookup (fs : FS) (p : String) : Option String :=
  fs.files.lookup p

/-- Embedding of `os.path.exists`. -/
def FS.pathExists (fs : FS) (p : String) : Bool :=
  (fs.lookup p).isSome

/-- Embedding of `os.path.getsize` (0 for a missing file; the artifacts are
ASCII CSV, so byte size is content length). -/
def FS.getsize (fs : FS) (p : String) : Nat :=
  ((fs.lookup p).getD "").length

/-- Embedding of `open(p, 'w')` followed by writing `c`: create or truncate
then fill. -/
def FS.write (fs : FS) (p c : String) : FS :=
  ⟨(p, c) :: fs.files.filter (fun kv => kv.1 ≠ p)⟩

/-- Embedding of `os.remove`. -/
def FS.remove (fs : FS) (p : String) : FS :=
  ⟨fs.files.filter (fun kv => kv.1 ≠ p)⟩

/-- World state threaded through the orchestrator: the file system plus a
ghost counter of subprocess invocations (fetch-collaborator calls), so that
"zero fetch calls" is expressible. -/
structure World where
  fs : FS
  calls : Nat
  deriving DecidableEq, Repr

/-- Terminal classification of one work item. The Python function returns a
Bool; the constructor records which return site produced it:
`skipped` = line 97 (file already exists), `success` = line 109 (data
downloaded and validated), `failure` = any of the `return False` sites. -/
inductive Outcome where
  | skipped
  | success
  | failure
  deriving DecidableEq, Repr

/-- The Bool actually returned by the Python `fetch_single_stock`. -/
def Outcome.toBool : Outcome → Bool
  | .failure => false
  | _ => true

/-- Artifact path for a stock code (get-all-stock-data.py line 92). -/
def output_file (code : String) : String :=
  "jp_all/" ++ code ++ ".stock.csv"

/-- Embedding of `fetch_single_stock(stock_code, period)` (lines 80-122):
skip when the output file already exists (existence check only); otherwise
open the output file for writing (creating/truncating it), run the
subprocess with its stdout redirected into the file, then classify:
exit 0 and size > 100 is success; exit 0 and size ≤ 100 is failure with the
small file left in place; nonzero exit removes the file and is failure.
An exception from the subprocess call is caught and yields failure, leaving
the file that `open(..., 'w')` created empty. -/
def fetch_single_stock (sub : String → String → SubprocBehavior)
    (w : World) (code period : String) : Outcome × World :=
  if FS.pathExists w.fs (output_file code) then
    (Outcome.skipped, w)
  else
    match sub code period with
    | SubprocBehavior.raise =>
      (Outcome.failure, ⟨FS.write w.fs (output_file code) "", w.calls + 1⟩)
    | SubprocBehavior.ok r =>
      if r.returncode = 0 then
        if FS.pathExists (FS.write w.fs (output_file code) r.stdout) (output_file code)
            ∧ 100 < FS.getsize (FS.write w.fs (output_file code) r.stdout) (output_file code) then
          (Outcome.success, ⟨FS.write w.fs (output_file code) r.stdout, w.calls + 1⟩)
        else
          (Outcome.failure, ⟨FS.write w.fs (output_file code) r.stdout, w.calls + 1⟩)
      else
        (Outcome.failure,
          ⟨if FS.pathExists (FS.write w.fs (output_file code) r.stdout) (output_file code)
             then FS.remove (FS.write w.fs (output_file code) r.stdout) (output_file code)
             else FS.write w.fs (output_file code) r.stdout,
           w.calls + 1⟩)

/-- The two counters maintained by `fetch_all_stocks` (lines 131-132); the
Python function returns `successful` and logs both plus their sum as Total. -/
structure RunAgg where
  successful : Nat
  failed : Nat
  deriving DecidableEq, Repr

/-- Embedding of `fetch_all_stocks(stock_codes, period, max_workers)`
(lines 124-164): one work item submitted per code, one Bool result collected
per item, `successful` incremented for a true result and `failed` for a
false one. The pool completes items in nondeterministic order; the embedding
processes them in submission order, and also returns the ghost list of
per-item outcomes and the final world. -/
def fetch_all_stocks (sub : String → String → SubprocBehavior) (w : World)
    (codes : List String) (period : String) : RunAgg × List Outcome × World :=
  match codes with
  | [] => (⟨0, 0⟩, [], w)
  | code :: rest =>
    let r := fetch_single_stock sub w code period
    let t := fetch_all_stocks sub r.2 rest period
    (if r.1.toBool then ⟨t.1.successful + 1, t.1.failed⟩
      else ⟨t.1.successful, t.1.failed + 1⟩,
     r.1 :: t.2.1, t.2.2)

/-- Exit status of `main` in get-all-stock-data.py from the code-extraction
step on (lines 186-210): an empty code list logs an error and exits 1;
otherwise exit 0 when the `successful` counter returned by
`fetch_all_stocks` is positive, else exit 1. -/
def main_exit (sub : String → String → SubprocBehavior) (w : World)
    (codes : List String) (period : String) : Nat :=
  if codes.isEmpty then 1
  else if 0 < (fetch_all_stocks sub w codes period).1.successful then 0 else 1

/- ================= concrete oracles and states ================= -/

/-- Provider whose history call always fails. -/
def provNone : String → String → Nat → Option String := fun _ _ _ => none

/-- Provider that always returns a 1-byte history, below the 100-byte
validity threshold. -/
def provSmall : String → String → Nat → Option String := fun _ _ _ => some "x"

/-- Provider that fails on attempt 1 and succeeds from attempt 2 on. -/
def provWit : String → String → Nat → Option String :=
  fun _ _ n => if n = 2 then some "csvdata" else none

/-- A file content comfortably above the 100-byte threshold. -/
def csvBig : String := String.mk (List.replicate 120 'a')

/- ================= file-system lemmas ================= -/

lemma lookup_filter_ne (l : List (String × String)) (p : String) :
    (l.filter (fun kv => kv.1 ≠ p)).lookup p = none := by
  simp
  exact fun a b _ hne hpa => hne hpa.symm

lemma FS.lookup_write (fs : FS) (p c : String) :
    FS.lookup (FS.write fs p c) p = some c := by
  simp [FS.write, FS.lookup, List.lookup]

lemma FS.lookup_remove (fs : FS) (p : String) :
    FS.lookup (FS.remove fs p) p = none := by
  simp [FS.remove, FS.lookup]
  exact fun a b _ hne hpa => hne hpa.symm

lemma FS.pathExists_write (fs : FS) (p c : String) :
    FS.pathExists (FS.write fs p c) p = true := by
  simp [FS.pathExists, FS.lookup_write]

lemma FS.pathExists_remove (fs : FS) (p : String) :
    FS.pathExists (FS.remove fs p) p = false := by
  simp [FS.pathExists, FS.lookup_remove]

lemma FS.getsize_write (fs : FS) (p c : String) :
    FS.getsize (FS.write fs p c) p = c.length := by
  simp [FS.getsize, FS.lookup_write]

/-- Helper: when the artifact file is absent the outcome is never Skipped. -/
lemma single_not_skipped (sub : String → String → SubprocBehavior) (w : World)
    (code period : String) (h : FS.pathExists w.fs (output_file code) = false) :
    (fetch_single_stock sub w code period).1 ≠ Outcome.skipped := by
  simp only [fetch_single_stock, h, Bool.false_eq_true, if_false]
  cases sub code period with
  | raise => simp
  | ok r =>
    dsimp only
    split
    · split <;> simp
    · simp

/- ================= claim C1 ================= -/

/-- C1 counterexample: the artifact file for "0000" exists but is empty
(size 0, failing the minimum-size validity check), yet `fetch_single_stock`
records Skipped — refuting the claim that Skipped is recorded only when the
file exists AND passes the size check, never on existence alone. -/
theorem c1_counterexample :
    (fetch_single_stock (subprocOf provNone)
        ⟨⟨[("jp_all/0000.stock.csv", "")]⟩, 0⟩ "0000" "5y").1 = Outcome.skipped
      ∧ FS.getsize (⟨[("jp_all/0000.stock.csv", "")]⟩ : FS) "jp_all/0000.stock.csv" ≤ 100 := by
  decide

/-- C1 amended: the orchestrator records Outcome=Skipped exactly when the
identifier's artifact file exists, regardless of the file's size; no
minimum-size validity check is applied at the skip decision, and a skipped
item performs no fetch call and leaves the state unchanged. -/
theorem c1_amended (sub : String → String → SubprocBehavior) (w : World)
    (code period : String) :
    ((fetch_single_stock sub w code period).1 = Outcome.skipped
      ↔ FS.pathExists w.fs (output_file code) = true)
    ∧ (FS.pathExists w.fs (output_file code) = true
      → fetch_single_stock sub w code period = (Outcome.skipped, w)) := by
  refine ⟨⟨fun hskip => ?_, fun hex => ?_⟩, fun hex => ?_⟩
  · by_contra hne
    rw [Bool.not_eq_true] at hne
    exact single_not_skipped sub w code period hne hskip
  · simp [fetch_single_stock, hex]
  · simp [fetch_single_stock, hex]

/-- C1 witness: a concrete skipped item whose artifact is empty (invalid). -/
theorem c1_witness :
    fetch_single_stock (subprocOf provNone)
        ⟨⟨[("jp_all/9984.stock.csv", "")]⟩, 0⟩ "9984" "5y"
      = (Outcome.skipped, ⟨⟨[("jp_all/9984.stock.csv", "")]⟩, 0⟩) :=
  (c1_amended (subprocOf provNone) ⟨⟨[("jp_all/9984.stock.csv", "")]⟩, 0⟩
    "9984" "5y").2 (by decide)

/- ================= claim C2 ================= -/

/-- C2 counterexample: the subprocess exits 0 with a 1-byte payload (at or
under the 100-byte threshold); the outcome is Failure, but the undersized
artifact file persists after the call — refuting the claim that no artifact
file for the identifier persists (absent, not present-but-small). -/
theorem c2_counterexample :
    (fetch_single_stock (subprocOf provSmall) ⟨⟨[]⟩, 0⟩ "0000" "5y").1 = Outcome.failure
      ∧ FS.pathExists (fetch_single_stock (subprocOf provSmall) ⟨⟨[]⟩, 0⟩ "0000" "5y").2.fs
          "jp_all/0000.stock.csv" = true
      ∧ FS.getsize (fetch_single_stock (subprocOf provSmall) ⟨⟨[]⟩, 0⟩ "0000" "5y").2.fs
          "jp_all/0000.stock.csv" ≤ 100 := by
  decide

/-- C2 amended: when the fetch subprocess exits nonzero (it returned no
data), the outcome is Failure and the partially-written artifact file is
deleted; but when the subprocess exits zero and the written file's size is
at or under the threshold, the outcome is Failure while the undersized file
is left in place (it is not deleted). -/
theorem c2_amended (sub : String → String → SubprocBehavior) (w : World)
    (code period out : String) (rc : Nat)
    (hne : FS.pathExists w.fs (output_file code) = false) :
    (sub code period = SubprocBehavior.ok ⟨rc, out⟩ → rc ≠ 0 →
      (fetch_single_stock sub w code period).1 = Outcome.failure
        ∧ FS.pathExists (fetch_single_stock sub w code period).2.fs (output_file code) = false)
    ∧ (sub code period = SubprocBehavior.ok ⟨0, out⟩ → out.length ≤ 100 →
      (fetch_single_stock sub w code period).1 = Outcome.failure
        ∧ FS.lookup (fetch_single_stock sub w code period).2.fs (output_file code) = some out) := by
  constructor
  · intro hok hrc
    simp [fetch_single_stock, hne, hok, hrc, FS.pathExists_write, FS.pathExists_remove]
  · intro hok hlen
    have hsize : ¬ (100 < FS.getsize (FS.write w.fs (output_file code) out) (output_file code)) := by
      rw [FS.getsize_write]
      omega
    simp [fetch_single_stock, hne, hok, hsize, FS.lookup_write]

/-- C2 witness: a concrete no-data run (subprocess exits 1) whose outcome is
Failure and whose partial artifact is deleted. -/
theorem c2_witness :
    (fetch_single_stock (subprocOf provNone) ⟨⟨[]⟩, 0⟩ "0000" "5y").1 = Outcome.failure
      ∧ FS.pathExists (fetch_single_stock (subprocOf provNone) ⟨⟨[]⟩, 0⟩ "0000" "5y").2.fs
          (output_file "0000") = false :=
  (c2_amended (subprocOf provNone) ⟨⟨[]⟩, 0⟩ "0000" "5y" "" 1 (by decide)).1
    (by decide) (by decide)

/- ================= batch counting lemmas ================= -/

/-- Helper: a skipped item returns immediately with the state unchanged. -/
lemma single_skip (sub : String → String → SubprocBehavior) (w : World)
    (code period : String) (h : FS.pathExists w.fs (output_file code) = true) :
    fetch_single_stock sub w code period = (Outcome.skipped, w) := by
  simp [fetch_single_stock, h]

/-- Helper: the batch counters in terms of the per-item outcomes — the
`successful` counter counts every non-failure (skips included), `failed`
counts the failures, and exactly one outcome is recorded per identifier. -/
lemma fetch_all_counts (sub : String → String → SubprocBehavior) (w : World)
    (codes : List String) (period : String) :
    (fetch_all_stocks sub w codes period).1.successful
        = (fetch_all_stocks sub w codes period).2.1.count Outcome.success
          + (fetch_all_stocks sub w codes period).2.1.count Outcome.skipped
      ∧ (fetch_all_stocks sub w codes period).1.failed
        = (fetch_all_stocks sub w codes period).2.1.count Outcome.failure
      ∧ (fetch_all_stocks sub w codes period).2.1.length = codes.length := by
  induction codes generalizing w with
  | nil => simp [fetch_all_stocks]
  | cons c rest ih =>
    obtain ⟨ih1, ih2, ih3⟩ := ih (fetch_single_stock sub w c period).2
    cases ho : (fetch_single_stock sub w c period).1 with
    | skipped =>
      simp [fetch_all_stocks, ho, Outcome.toBool, List.count_cons, ih1, ih2, ih3]
      omega
    | success =>
      simp [fetch_all_stocks, ho, Outcome.toBool, List.count_cons, ih1, ih2, ih3]
      omega
    | failure =>
      simp [fetch_all_stocks, ho, Outcome.toBool, List.count_cons, ih1, ih2, ih3]

/-- Helper: the three outcome counts of any outcome list sum to its length. -/
lemma count_outcomes (l : List Outcome) :
    l.count Outcome.success + l.count Outcome.skipped + l.count Outcome.failure
      = l.length := by
  induction l with
  | nil => simp
  | cons o rest ih => cases o <;> simp [List.count_cons] <;> omega

/- ================= claim C3 ================= -/

/-- C3 counterexample: one identifier whose valid artifact already exists —
its outcome is Skipped, there is no Success outcome, and yet the aggregate's
`successful` counter is 1, refuting successful = count(Success); the code
also keeps no skipped counter at all. -/
theorem c3_counterexample :
    (fetch_all_stocks (subprocOf provNone)
        ⟨⟨[("jp_all/7203.stock.csv", csvBig)]⟩, 0⟩ ["7203"] "5y").1.successful = 1
      ∧ (fetch_all_stocks (subprocOf provNone)
          ⟨⟨[("jp_all/7203.stock.csv", csvBig)]⟩, 0⟩ ["7203"] "5y").2.1.count
            Outcome.success = 0 := by
  decide

/-- C3 amended: after all items finish the aggregate satisfies
successful = count(Success) + count(Skipped) (skips are counted as
successes; there is no separate skipped counter), failed = count(Failure),
exactly one outcome is recorded per identifier, and
successful + failed = total = length of the identifier sequence. -/
theorem c3_amended (sub : String → String → SubprocBehavior) (w : World)
    (codes : List String) (period : String) :
    (fetch_all_stocks sub w codes period).1.successful
        = (fetch_all_stocks sub w codes period).2.1.count Outcome.success
          + (fetch_all_stocks sub w codes period).2.1.count Outcome.skipped
      ∧ (fetch_all_stocks sub w codes period).1.failed
        = (fetch_all_stocks sub w codes period).2.1.count Outcome.failure
      ∧ (fetch_all_stocks sub w codes period).2.1.length = codes.length
      ∧ (fetch_all_stocks sub w codes period).1.successful
          + (fetch_all_stocks sub w codes period).1.failed = codes.length := by
  obtain ⟨h1, h2, h3⟩ := fetch_all_counts sub w codes period
  have h4 := count_outcomes (fetch_all_stocks sub w codes period).2.1
  exact ⟨h1, h2, h3, by omega⟩

/- ================= claim C4 ================= -/

/-- C4 counterexample: a second run over a directory holding a valid
artifact for the only identifier reports `successful = 1` (= total), not the
`successful = 0` the claim requires, because the skip is counted as a
success; the state (contents and call counter) is indeed unchanged. -/
theorem c4_counterexample :
    (fetch_all_stocks (subprocOf provNone)
        ⟨⟨[("jp_all/9984.stock.csv", csvBig)]⟩, 0⟩ ["9984"] "5y").1.successful = 1
      ∧ (fetch_all_stocks (subprocOf provNone)
          ⟨⟨[("jp_all/9984.stock.csv", csvBig)]⟩, 0⟩ ["9984"] "5y").1.successful ≠ 0
      ∧ (fetch_all_stocks (subprocOf provNone)
          ⟨⟨[("jp_all/9984.stock.csv", csvBig)]⟩, 0⟩ ["9984"] "5y").2.2
        = ⟨⟨[("jp_all/9984.stock.csv", csvBig)]⟩, 0⟩ := by
  decide

/-- C4 amended: re-running the orchestrator when every identifier's artifact
file already exists performs zero fetch-collaborator calls and leaves every
artifact's contents unchanged (the world, including the call counter, is
returned untouched), every outcome is Skipped, and the aggregate reports
successful = total and failed = 0 — not successful = 0, since each skipped
item is counted as successful and no separate skipped counter exists. -/
theorem c4_amended (sub : String → String → SubprocBehavior) (w : World)
    (codes : List String) (period : String)
    (h : ∀ c ∈ codes, FS.pathExists w.fs (output_file c) = true) :
    fetch_all_stocks sub w codes period
      = (⟨codes.length, 0⟩, List.replicate codes.length Outcome.skipped, w) := by
  induction codes generalizing w with
  | nil => simp [fetch_all_stocks]
  | cons c rest ih =>
    have hc := single_skip sub w c period (h c (by simp))
    have hrest := ih w (fun d hd => h d (by simp [hd]))
    simp [fetch_all_stocks, hc, hrest, Outcome.toBool, List.replicate_succ]

/-- C4 witness: a concrete one-identifier second run returning all-skipped
with the world unchanged. -/
theorem c4_witness :
    fetch_all_stocks (subprocOf provNone)
        ⟨⟨[("jp_all/6758.stock.csv", csvBig)]⟩, 0⟩ ["6758"] "5y"
      = (⟨1, 0⟩, List.replicate 1 Outcome.skipped,
          ⟨⟨[("jp_all/6758.stock.csv", csvBig)]⟩, 0⟩) :=
  c4_amended (subprocOf provNone) ⟨⟨[("jp_all/6758.stock.csv", csvBig)]⟩, 0⟩
    ["6758"] "5y" (by decide)

/- ================= claim C6 ================= -/

/-- Subprocess oracle whose every call raises an exception. -/
def subRaise : String → String → SubprocBehavior := fun _ _ => SubprocBehavior.raise

/-- C6: an exception raised while processing a work item is caught at the
per-item boundary and converted to Outcome=Failure for that item; every item
of the batch still yields exactly one outcome, and the run completes with
aggregate counters accounting for all of them. -/
theorem c6_exception_boundary (sub : String → String → SubprocBehavior)
    (w : World) (codes : List String) (period : String) (c : String)
    (hraise : sub c period = SubprocBehavior.raise)
    (habsent : FS.pathExists w.fs (output_file c) = false) :
    (fetch_single_stock sub w c period).1 = Outcome.failure
      ∧ (fetch_all_stocks sub w codes period).2.1.length = codes.length
      ∧ (fetch_all_stocks sub w codes period).1.successful
          + (fetch_all_stocks sub w codes period).1.failed = codes.length := by
  obtain ⟨h1, h2, h3⟩ := fetch_all_counts sub w codes period
  have h4 := count_outcomes (fetch_all_stocks sub w codes period).2.1
  refine ⟨?_, h3, by omega⟩
  simp [fetch_single_stock, habsent, hraise]

/-- C6 witness: a concrete always-raising oracle on a two-item batch. -/
theorem c6_witness :
    (fetch_single_stock subRaise ⟨⟨[]⟩, 0⟩ "8035" "5y").1 = Outcome.failure
      ∧ (fetch_all_stocks subRaise ⟨⟨[]⟩, 0⟩ ["8035", "6954"] "5y").2.1.length
          = (["8035", "6954"] : List String).length
      ∧ (fetch_all_stocks subRaise ⟨⟨[]⟩, 0⟩ ["8035", "6954"] "5y").1.successful
          + (fetch_all_stocks subRaise ⟨⟨[]⟩, 0⟩ ["8035", "6954"] "5y").1.failed
        = (["8035", "6954"] : List String).length :=
  c6_exception_boundary subRaise ⟨⟨[]⟩, 0⟩ ["8035", "6954"] "5y" "8035"
    (by decide) (by decide)

/- ================= claim C7 ================= -/

/-- C7: for every completed run over a non-empty identifier sequence, the
process exit status is 0 iff count(Success) + count(Skipped) > 0 among the
per-item outcomes (the code's `successful` counter equals exactly that sum),
and the exit status is 1 otherwise. -/
theorem c7_exit_status (sub : String → String → SubprocBehavior) (w : World)
    (codes : List String) (period : String) (h : codes ≠ []) :
    (main_exit sub w codes period = 0
      ↔ 0 < (fetch_all_stocks sub w codes period).2.1.count Outcome.success
            + (fetch_all_stocks sub w codes period).2.1.count Outcome.skipped)
    ∧ (main_exit sub w codes period = 0 ∨ main_exit sub w codes period = 1) := by
  have hne : codes.isEmpty = false := by
    cases codes with
    | nil => exact absurd rfl h
    | cons c rest => rfl
  obtain ⟨h1, _, _⟩ := fetch_all_counts sub w codes period
  unfold main_exit
  rw [← h1]
  simp only [hne, Bool.false_eq_true, if_false]
  constructor
  · split <;> simp_all
  · split <;> simp

/-- C7 witness: a one-identifier run where every fetch fails exits 1, and
the success/skip count is zero. -/
theorem c7_witness :
    (main_exit (subprocOf provNone) ⟨⟨[]⟩, 0⟩ ["0000"] "5y" = 0
      ↔ 0 < (fetch_all_stocks (subprocOf provNone) ⟨⟨[]⟩, 0⟩ ["0000"] "5y").2.1.count
              Outcome.success
            + (fetch_all_stocks (subprocOf provNone) ⟨⟨[]⟩, 0⟩ ["0000"] "5y").2.1.count
                Outcome.skipped)
    ∧ (main_exit (subprocOf provNone) ⟨⟨[]⟩, 0⟩ ["0000"] "5y" = 0
        ∨ main_exit (subprocOf provNone) ⟨⟨[]⟩, 0⟩ ["0000"] "5y" = 1) :=
  c7_exit_status (subprocOf provNone) ⟨⟨[]⟩, 0⟩ ["0000"] "5y" (by decide)

/- ================= claim C8 ================= -/

/-- C8 counterexample: with an empty identifier sequence the process exits 1
(`main` logs "No stock codes found" as an error), exactly the same exit
status as a run in which every fetch failed — so the empty-input result is
an error and is not distinct from a failure result. -/
theorem c8_counterexample :
    main_exit (subprocOf provNone) ⟨⟨[]⟩, 0⟩ [] "5y" = 1
      ∧ main_exit (subprocOf provNone) ⟨⟨[]⟩, 0⟩ ["0000"] "5y" = 1 := by
  decide

/-- C8 amended: an empty identifier sequence yields zero counters
(successful = 0, failed = 0), an empty outcome list and an unchanged world;
but the caller-visible result is an error: `main` treats the empty code list
as fatal and exits 1, the same status as a run that accomplished nothing —
no distinct "no work" signal exists. -/
theorem c8_amended (sub : String → String → SubprocBehavior) (w : World)
    (period : String) :
    fetch_all_stocks sub w [] period = (⟨0, 0⟩, [], w)
      ∧ main_exit sub w [] period = 1 :=
  ⟨by simp [fetch_all_stocks], by simp [main_exit]⟩

/- ================= claim C5 ================= -/

/-- Helper: every provider query made by `fetch_stock_data` is for the
ticker with ".T" appended, with the requested period. -/
lemma fetch_queries (provider : String → String → Nat → Option String)
    (ticker period : String) :
    ∀ q ∈ (fetch_stock_data provider ticker period).queries,
      q = (ticker ++ ".T", period) := by
  rcases h1 : attemptOk provider (ticker ++ ".T") period 1 with _ | d1
  · rcases h2 : attemptOk provider (ticker ++ ".T") period 2 with _ | d2
    · rcases h3 : attemptOk provider (ticker ++ ".T") period 3 with _ | d3
      · simp [fetch_stock_data, fetch_loop, max_attempts, h1, h2, h3]
      · simp [fetch_stock_data, fetch_loop, max_attempts, h1, h2, h3]
    · simp [fetch_stock_data, fetch_loop, max_attempts, h1, h2]
  · simp [fetch_stock_data, fetch_loop, max_attempts, h1]

/-- C5: the single-item fetcher attempts the provider call between 1 and 3
times, all for the same (ticker ++ ".T", period), with a fixed 2-second
delay between consecutive attempts; it returns the data of the first
successful non-empty attempt (making exactly that many queries), and it
returns `none` (reporting failure rather than raising) exactly when all 3
attempts failed, in which case all 3 attempts were made. -/
theorem c5_fetch_retry (provider : String → String → Nat → Option String)
    (ticker period : String) :
    (∀ q ∈ (fetch_stock_data provider ticker period).queries, q = (ticker ++ ".T", period))
    ∧ 1 ≤ (fetch_stock_data provider ticker period).queries.length
    ∧ (fetch_stock_data provider ticker period).queries.length ≤ 3
    ∧ (fetch_stock_data provider ticker period).sleeps
        = List.replicate ((fetch_stock_data provider ticker period).queries.length - 1) 2
    ∧ ((fetch_stock_data provider ticker period).result = none
        ↔ attemptOk provider (ticker ++ ".T") period 1 = none
          ∧ attemptOk provider (ticker ++ ".T") period 2 = none
          ∧ attemptOk provider (ticker ++ ".T") period 3 = none)
    ∧ (∀ d, (fetch_stock_data provider ticker period).result = some d
        → ∃ n, 1 ≤ n ∧ n ≤ 3
            ∧ attemptOk provider (ticker ++ ".T") period n = some d
            ∧ (fetch_stock_data provider ticker period).queries.length = n
            ∧ ∀ m, 1 ≤ m → m < n → attemptOk provider (ticker ++ ".T") period m = none) := by
  refine ⟨fetch_queries provider ticker period, ?_⟩
  rcases h1 : attemptOk provider (ticker ++ ".T") period 1 with _ | d1
  · rcases h2 : attemptOk provider (ticker ++ ".T") period 2 with _ | d2
    · rcases h3 : attemptOk provider (ticker ++ ".T") period 3 with _ | d3
      · have ht : fetch_stock_data provider ticker period
            = ⟨none, [(ticker ++ ".T", period), (ticker ++ ".T", period), (ticker ++ ".T", period)], [2, 2]⟩ := by
          simp [fetch_stock_data, fetch_loop, max_attempts, h1, h2, h3]
        rw [ht]
        refine ⟨by simp, by simp, by simp [List.replicate], by simp [h1, h2, h3], by simp⟩
      · have ht : fetch_stock_data provider ticker period
            = ⟨some d3, [(ticker ++ ".T", period), (ticker ++ ".T", period), (ticker ++ ".T", period)], [2, 2]⟩ := by
          simp [fetch_stock_data, fetch_loop, max_attempts, h1, h2, h3]
        rw [ht]
        refine ⟨by simp, by simp, by simp [List.replicate], by simp [h3], ?_⟩
        intro d hd
        simp at hd
        subst hd
        refine ⟨3, by omega, by omega, h3, by simp, ?_⟩
        intro m hm1 hm2
        interval_cases m
        · exact h1
        · exact h2
    · have ht : fetch_stock_data provider ticker period
          = ⟨some d2, [(ticker ++ ".T", period), (ticker ++ ".T", period)], [2]⟩ := by
        simp [fetch_stock_data, fetch_loop, max_attempts, h1, h2]
      rw [ht]
      refine ⟨by simp, by simp, by simp [List.replicate], by simp [h2], ?_⟩
      intro d hd
      simp at hd
      subst hd
      refine ⟨2, by omega, by omega, h2, by simp, ?_⟩
      intro m hm1 hm2
      interval_cases m
      exact h1
  · have ht : fetch_stock_data provider ticker period
        = ⟨some d1, [(ticker ++ ".T", period)], []⟩ := by
      simp [fetch_stock_data, fetch_loop, max_attempts, h1]
    rw [ht]
    refine ⟨by simp, by simp, by simp [List.replicate], by simp [h1], ?_⟩
    intro d hd
    simp at hd
    subst hd
    exact ⟨1, by omega, by omega, h1, by simp, by omega⟩

/-- C5 witness: a provider failing on attempt 1 and succeeding on attempt 2
yields the attempt-2 data after exactly two queries. -/
theorem c5_witness :
    ∃ n, 1 ≤ n ∧ n ≤ 3
      ∧ attemptOk provWit ("7203" ++ ".T") "1y" n = some "csvdata"
      ∧ (fetch_stock_data provWit "7203" "1y").queries.length = n
      ∧ ∀ m, 1 ≤ m → m < n → attemptOk provWit ("7203" ++ ".T") "1y" m = none :=
  (c5_fetch_retry provWit "7203" "1y").2.2.2.2.2 "csvdata" (by decide)

/- ================= claim C10 ================= -/

/-- C10: every provider query of the single-item fetch script is for the
ticker with ".T" appended; a given period argument consisting only of
decimal digits (non-empty, per Python's `str.isdigit`) is used with "y"
appended, one containing any non-digit character is used verbatim, and a
missing period argument defaults to "1y". -/
theorem c10_arg_handling (provider : String → String → Nat → Option String)
    (ticker : String) (arg : Option String) (s : String) :
    (∀ q ∈ (fetch_stock_data provider ticker (gsd_main_period arg)).queries,
        q.1 = ticker ++ ".T")
    ∧ gsd_main_period none = "1y"
    ∧ (s ≠ "" → s.toList.all Char.isDigit = true → gsd_main_period (some s) = s ++ "y")
    ∧ ((∃ c ∈ s.toList, c.isDigit = false) → gsd_main_period (some s) = s) := by
  refine ⟨?_, rfl, ?_, ?_⟩
  · intro q hq
    rw [fetch_queries provider ticker (gsd_main_period arg) q hq]
  · intro hne hdig
    have hemp : s.isEmpty = false := by
      rw [Bool.eq_false_iff]
      intro he
      exact hne ((String.isEmpty_iff s).mp he)
    have hd : py_isdigit s = true := by
      unfold py_isdigit
      rw [hemp, hdig]
      rfl
    simp [gsd_main_period, hd]
  · intro hex
    obtain ⟨c, hc, hcd⟩ := hex
    have hd : py_isdigit s = false := by
      simp [py_isdigit]
      intro _
      exact ⟨c, hc, by simp [hcd]⟩
    simp [gsd_main_period, hd]

/-- C10 witness: the all-digit argument "5" becomes "5y"; "1mo", which
contains the non-digit 'm', is used verbatim. -/
theorem c10_witness :
    gsd_main_period (some "5") = "5" ++ "y" ∧ gsd_main_period (some "1mo") = "1mo" :=
  ⟨(c10_arg_handling provNone "7203" none "5").2.2.1 (by decide) (by decide),
   (c10_arg_handling provNone "7203" none "1mo").2.2.2 ⟨'m', by decide, by decide⟩⟩
